import Mathlib

/-!
Shallow embedding of the kubelet volume stats exporter (main.go).

The program polls the kubelet endpoint `/stats/summary`, decodes the JSON
response into `StatsResponse`, and projects it into six Prometheus gauge
vectors labelled `{namespace, persistentvolumeclaim, pod}`, plus an error
counter and a last-success timestamp gauge.

Modelling decisions:
- A Prometheus `GaugeVec` is an association list from a label triple to the
  stored value; `With(labels).Set(v)` replaces the value at an existing label
  key or appends a fresh child, and `Reset()` empties the vector.
- Gauge values are kept as `Nat` (the `uint64` field values); the `float64`
  cast in the source is an injection we do not model since no verified
  property depends on float rounding.
- Effects are passed explicitly: `collectOnce` receives the result of the
  fetch/decode pipeline and the current time, and transforms a `Registry`.
- The JSON decoder mirrors the semantics of Go encoding/json for the struct
  types of main.go: unknown object keys are ignored, a JSON null is a no-op
  assignment, and a shape mismatch is an error.  JSON numbers are modelled
  as integers and the RFC3339 timestamp string is kept unparsed; neither
  abstraction is touched by the verified properties.
-/

namespace KubeletVolumeStats

/-- main.go `PVCRef`: `{name, namespace}` reference carried by a volume. -/
structure PVCRef where
  name : String
  «namespace» : String
deriving DecidableEq, Inhabited

/-- main.go `PodReference`: identity of the pod owning the volumes. -/
structure PodReference where
  name : String
  «namespace» : String
  uid : String
deriving DecidableEq, Inhabited

/-- main.go `VolumeStats`: one per-volume record of the summary document.
The six numeric fields are optional `uint64` values; `time` is kept as the
raw timestamp string. -/
structure VolumeStats where
  time : String
  name : String
  pvcRef : Option PVCRef
  capacityBytes : Option Nat
  usedBytes : Option Nat
  availableBytes : Option Nat
  inodesTotal : Option Nat
  inodesFree : Option Nat
  inodesUsed : Option Nat
deriving DecidableEq, Inhabited

/-- main.go `NodeStats`. -/
structure NodeStats where
  nodeName : String
deriving DecidableEq, Inhabited

/-- main.go `PodStats`: pod reference plus its volume records; the
ephemeral-storage record is decoded but never projected. -/
structure PodStats where
  podRef : PodReference
  volume : List VolumeStats
  ephemeral : Option VolumeStats
deriving DecidableEq, Inhabited

/-- main.go `StatsResponse`: the decoded form of one poll response. -/
structure StatsResponse where
  node : NodeStats
  pods : List PodStats
deriving DecidableEq, Inhabited

/-- The label triple `{namespace, persistentvolumeclaim, pod}` attached to
every volume observation (main.go lines 522-526). -/
structure Labels where
  «namespace» : String
  persistentvolumeclaim : String
  pod : String
deriving DecidableEq

/-- The six tracked metric kinds, one per gauge vector. -/
inductive MetricKind where
  | capacityBytes
  | availableBytes
  | usedBytes
  | inodesTotal
  | inodesFree
  | inodesUsed
deriving DecidableEq

/-- A Prometheus gauge vector: children keyed by the label triple. -/
abbrev GaugeVec : Type := List (Labels × Nat)

/-- `With(labels).Set(v)`: replace the value at the first child with this
label key, or append a fresh child when none exists. -/
def GaugeVec.set : GaugeVec → Labels → Nat → GaugeVec
  | [], l, v => [(l, v)]
  | (l₀, v₀) :: rest, l, v =>
      if l₀ = l then (l, v) :: rest else (l₀, v₀) :: GaugeVec.set rest l v

/-- The value currently stored for a label key, if any. -/
def GaugeVec.get : GaugeVec → Labels → Option Nat
  | [], _ => none
  | (l₀, v₀) :: rest, l => if l₀ = l then some v₀ else GaugeVec.get rest l

/-- How many children of the vector carry the given label key. -/
def GaugeVec.countLabel (g : GaugeVec) (l : Labels) : Nat :=
  (g.filter fun p => decide (p.1 = l)).length

/-- The six volume gauge vectors touched by `updateMetrics`. -/
structure VolumeGauges where
  volumeCapacityBytes : GaugeVec
  volumeAvailableBytes : GaugeVec
  volumeUsedBytes : GaugeVec
  volumeInodesTotal : GaugeVec
  volumeInodesFree : GaugeVec
  volumeInodesUsed : GaugeVec
deriving DecidableEq

/-- All six gauge vectors empty. -/
def emptyVolumeGauges : VolumeGauges := ⟨[], [], [], [], [], []⟩

/-- Select the gauge vector of a metric kind. -/
def VolumeGauges.gaugeOf (g : VolumeGauges) : MetricKind → GaugeVec
  | .capacityBytes => g.volumeCapacityBytes
  | .availableBytes => g.volumeAvailableBytes
  | .usedBytes => g.volumeUsedBytes
  | .inodesTotal => g.volumeInodesTotal
  | .inodesFree => g.volumeInodesFree
  | .inodesUsed => g.volumeInodesUsed

/-- Select the numeric field of a volume record for a metric kind. -/
def fieldOf (vol : VolumeStats) : MetricKind → Option Nat
  | .capacityBytes => vol.capacityBytes
  | .availableBytes => vol.availableBytes
  | .usedBytes => vol.usedBytes
  | .inodesTotal => vol.inodesTotal
  | .inodesFree => vol.inodesFree
  | .inodesUsed => vol.inodesUsed

/-- main.go lines 522-526: the label triple is built from the pod reference
for `namespace` and `pod`, and from the PVC reference only for
`persistentvolumeclaim`. -/
def labelsOf (podRef : PodReference) (pvcRef : PVCRef) : Labels :=
  ⟨podRef.«namespace», pvcRef.name, podRef.name⟩

/-- `if field != nil { vec.With(labels).Set(float64(*field)) }`. -/
def setIfPresent (g : GaugeVec) (l : Labels) : Option Nat → GaugeVec
  | some v => GaugeVec.set g l v
  | none => g

/-- Body of the inner loop of `updateMetrics` (main.go lines 500-557): a
volume without `pvcRef` is skipped; otherwise each present numeric field is
written to its gauge vector under the label triple. -/
def processVolume (g : VolumeGauges) (podRef : PodReference)
    (volume : VolumeStats) : VolumeGauges :=
  match volume.pvcRef with
  | none => g
  | some pvcRef =>
      let labels := labelsOf podRef pvcRef
      { volumeCapacityBytes := setIfPresent g.volumeCapacityBytes labels volume.capacityBytes
        volumeAvailableBytes := setIfPresent g.volumeAvailableBytes labels volume.availableBytes
        volumeUsedBytes := setIfPresent g.volumeUsedBytes labels volume.usedBytes
        volumeInodesTotal := setIfPresent g.volumeInodesTotal labels volume.inodesTotal
        volumeInodesFree := setIfPresent g.volumeInodesFree labels volume.inodesFree
        volumeInodesUsed := setIfPresent g.volumeInodesUsed labels volume.inodesUsed }

/-- main.go lines 465-470: `Reset()` on each of the six vectors. -/
def resetVolumeGauges (_g : VolumeGauges) : VolumeGauges := emptyVolumeGauges

/-- The nested pod/volume loop of `updateMetrics` (main.go lines 474-570). -/
def updateMetricsFrom (g : VolumeGauges) (pods : List PodStats) : VolumeGauges :=
  pods.foldl
    (fun g pod => pod.volume.foldl (fun g vol => processVolume g pod.podRef vol) g) g

/-- main.go `updateMetrics`: reset all six gauge vectors, then repopulate
them from the snapshot. -/
def updateMetrics (g : VolumeGauges) (stats : StatsResponse) : VolumeGauges :=
  updateMetricsFrom (resetVolumeGauges g) stats.pods

/-- The registry state touched by one collection iteration: the six volume
gauge vectors, the scrape error counter, and the last-success timestamp
(`none` while never set). -/
structure Registry where
  gauges : VolumeGauges
  scrapeErrorsTotal : Nat
  lastScrapeTimestamp : Option Nat
deriving DecidableEq

/-- The failure cases of the fetch/decode pipeline (main.go `fetchStats`):
transport failure, non-200 upstream status, and the two decode stages. -/
inductive FetchError where
  | transport (msg : String)
  | upstreamStatus (code : Nat) (body : String)
  | decodeGeneric (msg : String)
  | decodeStruct (msg : String)

/-- main.go `collectOnce`: on any fetch/decode error, increment the error
counter and return; on success, run `updateMetrics` and set the timestamp. -/
def collectOnce (fetchResult : Except FetchError StatsResponse) (now : Nat)
    (r : Registry) : Registry :=
  match fetchResult with
  | Except.error _ => { r with scrapeErrorsTotal := r.scrapeErrorsTotal + 1 }
  | Except.ok stats =>
      { r with
          gauges := updateMetrics r.gauges stats
          lastScrapeTimestamp := some now }

/-! ## Specification-side characterisation of the projection

The projection is characterised pointwise: `lookupFinal` scans the volumes
in iteration order and returns the value of the latest volume whose label
triple matches and whose field is present (later volumes take priority:
last write wins). -/

/-- The volumes of a snapshot in iteration order, each paired with the
reference of its owning pod. -/
def volumesInOrder (pods : List PodStats) : List (PodReference × VolumeStats) :=
  pods.flatMap fun pod => pod.volume.map fun vol => (pod.podRef, vol)

/-- The write a single volume performs on gauge `k` at label key `l`:
present exactly when the volume has a `pvcRef`, its label triple is `l`,
and field `k` is present. -/
def volumeWrite (pr : PodReference) (vol : VolumeStats) (k : MetricKind)
    (l : Labels) : Option Nat :=
  match vol.pvcRef with
  | none => none
  | some ref => if labelsOf pr ref = l then fieldOf vol k else none

/-- The value of the last write in iteration order targeting `(k, l)`:
later list entries take priority over earlier ones. -/
def lookupFinal : List (PodReference × VolumeStats) → MetricKind → Labels → Option Nat
  | [], _, _ => none
  | pv :: rest, k, l =>
      match lookupFinal rest k l with
      | some v => some v
      | none => volumeWrite pv.1 pv.2 k l

/-! ## Snapshot decoder

Embedding of the two-stage decode in `fetchStats` (main.go lines 334-422):
first the body is unmarshalled into a generic string-keyed map (which only
accepts a JSON object or null at top level), then into `StatsResponse`.
The struct decoding follows Go encoding/json for the declared types:
unknown keys are ignored, null values are no-op assignments, and a value
whose shape does not match the field type is an error. -/

/-- A parsed JSON document. -/
inductive Json where
  | null
  | bool (b : Bool)
  | num (n : Int)
  | str (s : String)
  | arr (items : List Json)
  | obj (fields : List (String × Json))

/-- Go decode of a `*uint64` field value (null is handled by the caller):
the number must be a non-negative integer. -/
def decodeUInt64 : Json → Except String Nat
  | Json.num n => if n < 0 then Except.error "negative value into uint64"
      else Except.ok n.toNat
  | _ => Except.error "type mismatch for uint64"

/-- Go decode of the `PVCRef` struct (main.go lines 134-137). -/
def decodePVCRef : Json → Except String PVCRef
  | Json.null => Except.ok default
  | Json.obj fields =>
      fields.foldlM
        (fun (acc : PVCRef) kv =>
          match kv with
          | (_, Json.null) => Except.ok acc
          | ("name", Json.str s) => Except.ok { acc with name := s }
          | ("name", _) => Except.error "pvcRef.name type mismatch"
          | ("namespace", Json.str s) => Except.ok { acc with «namespace» := s }
          | ("namespace", _) => Except.error "pvcRef.namespace type mismatch"
          | _ => Except.ok acc)
        default
  | _ => Except.error "pvcRef type mismatch"

/-- Go decode of the `PodReference` struct (main.go lines 116-120). -/
def decodePodReference : Json → Except String PodReference
  | Json.null => Except.ok default
  | Json.obj fields =>
      fields.foldlM
        (fun (acc : PodReference) kv =>
          match kv with
          | (_, Json.null) => Except.ok acc
          | ("name", Json.str s) => Except.ok { acc with name := s }
          | ("name", _) => Except.error "podRef.name type mismatch"
          | ("namespace", Json.str s) => Except.ok { acc with «namespace» := s }
          | ("namespace", _) => Except.error "podRef.namespace type mismatch"
          | ("uid", Json.str s) => Except.ok { acc with uid := s }
          | ("uid", _) => Except.error "podRef.uid type mismatch"
          | _ => Except.ok acc)
        default
  | _ => Except.error "podRef type mismatch"

/-- Go decode of the `VolumeStats` struct (main.go lines 122-132); note the
JSON key of `InodesTotal` is `inodes`.  The RFC3339 timestamp is kept as a
raw string. -/
def decodeVolumeStats : Json → Except String VolumeStats
  | Json.null => Except.ok default
  | Json.obj fields =>
      fields.foldlM
        (fun (acc : VolumeStats) kv =>
          match kv with
          | (_, Json.null) => Except.ok acc
          | ("time", Json.str s) => Except.ok { acc with time := s }
          | ("time", _) => Except.error "volume.time type mismatch"
          | ("name", Json.str s) => Except.ok { acc with name := s }
          | ("name", _) => Except.error "volume.name type mismatch"
          | ("pvcRef", j) =>
              (decodePVCRef j).map fun ref => { acc with pvcRef := some ref }
          | ("capacityBytes", j) =>
              (decodeUInt64 j).map fun n => { acc with capacityBytes := some n }
          | ("usedBytes", j) =>
              (decodeUInt64 j).map fun n => { acc with usedBytes := some n }
          | ("availableBytes", j) =>
              (decodeUInt64 j).map fun n => { acc with availableBytes := some n }
          | ("inodes", j) =>
              (decodeUInt64 j).map fun n => { acc with inodesTotal := some n }
          | ("inodesFree", j) =>
              (decodeUInt64 j).map fun n => { acc with inodesFree := some n }
          | ("inodesUsed", j) =>
              (decodeUInt64 j).map fun n => { acc with inodesUsed := some n }
          | _ => Except.ok acc)
        default
  | _ => Except.error "volume type mismatch"

/-- Go decode of the `PodStats` struct (main.go lines 110-114). -/
def decodePodStats : Json → Except String PodStats
  | Json.null => Except.ok default
  | Json.obj fields =>
      fields.foldlM
        (fun (acc : PodStats) kv =>
          match kv with
          | (_, Json.null) => Except.ok acc
          | ("podRef", j) =>
              (decodePodReference j).map fun pr => { acc with podRef := pr }
          | ("volume", Json.arr items) =>
              (items.mapM decodeVolumeStats).map fun vols =>
                { acc with volume := vols }
          | ("volume", _) => Except.error "pod.volume type mismatch"
          | ("ephemeral-storage", j) =>
              (decodeVolumeStats j).map fun v => { acc with ephemeral := some v }
          | _ => Except.ok acc)
        default
  | _ => Except.error "pod type mismatch"

/-- Go decode of the `NodeStats` struct (main.go lines 106-108). -/
def decodeNodeStats : Json → Except String NodeStats
  | Json.null => Except.ok default
  | Json.obj fields =>
      fields.foldlM
        (fun (acc : NodeStats) kv =>
          match kv with
          | (_, Json.null) => Except.ok acc
          | ("nodeName", Json.str s) => Except.ok { acc with nodeName := s }
          | ("nodeName", _) => Except.error "node.nodeName type mismatch"
          | _ => Except.ok acc)
        default
  | _ => Except.error "node type mismatch"

/-- Go decode of the top-level `StatsResponse` struct (main.go lines
101-104, used at line 416): null and the empty object both decode to a
snapshot with zero pods. -/
def decodeStatsResponse : Json → Except String StatsResponse
  | Json.null => Except.ok default
  | Json.obj fields =>
      fields.foldlM
        (fun (acc : StatsResponse) kv =>
          match kv with
          | (_, Json.null) => Except.ok acc
          | ("node", j) => (decodeNodeStats j).map fun n => { acc with node := n }
          | ("pods", Json.arr items) =>
              (items.mapM decodePodStats).map fun ps => { acc with pods := ps }
          | ("pods", _) => Except.error "pods type mismatch"
          | _ => Except.ok acc)
        default
  | _ => Except.error "response type mismatch"

/-- An HTTP response body: either bytes that are not valid JSON, or a
parsed document. -/
inductive Body where
  | malformed (raw : String)
  | wellFormed (j : Json)

/-- main.go lines 334-342: unmarshalling into `map[string]interface` only
succeeds when the top-level value is an object or null. -/
def unmarshalGenericOk : Json → Bool
  | Json.obj _ => true
  | Json.null => true
  | _ => false

/-- The decode stage of `fetchStats` (main.go lines 334-422): generic
unmarshal check, then struct decode. -/
def decodeBody : Body → Except FetchError StatsResponse
  | Body.malformed raw => Except.error (FetchError.decodeGeneric raw)
  | Body.wellFormed j =>
      if unmarshalGenericOk j then
        match decodeStatsResponse j with
        | Except.ok s => Except.ok s
        | Except.error m => Except.error (FetchError.decodeStruct m)
      else Except.error (FetchError.decodeGeneric "not a JSON object")

/-- The whole `fetchStats` pipeline as a function of the network outcome:
`none` is a transport failure; otherwise the status code is checked against
200 before the body is decoded (main.go lines 305-318). -/
def fetchStatsResult : Option (Nat × Body) → Except FetchError StatsResponse
  | none => Except.error (FetchError.transport "request failed")
  | some (status, body) =>
      if status ≠ 200 then
        Except.error (FetchError.upstreamStatus status "unexpected status code")
      else decodeBody body

/-! ## Bearer token handling

main.go reads the service account token once, in `main` (line 182), and
stores it in the collector; `fetchStats` (lines 301-303) uses the stored
`c.token` and never consults the file again.  The filesystem is modelled
as a partial map from paths to contents. -/

/-- A filesystem state: path to file contents, `none` when unreadable. -/
def FileSystem : Type := String → Option String

/-- main.go `readToken`: read the file at the path. -/
def readToken (fs : FileSystem) (path : String) : Except String String :=
  match fs path with
  | some data => Except.ok data
  | none => Except.error "open: no such file"

/-- The collector state relevant to authentication: the stored token. -/
structure VolumeStatsCollector where
  token : String

/-- main.go lines 181-204: the token is read once at startup; on a read
error the process proceeds with an empty token. -/
def mkCollector (fs : FileSystem) (tokenPath : String) : VolumeStatsCollector :=
  match readToken fs tokenPath with
  | Except.ok t => ⟨t⟩
  | Except.error _ => ⟨""⟩

/-- main.go lines 301-303: the Authorization header of one fetch.  The
current filesystem state is a parameter to express what a re-read would
see, but the code only uses the stored `c.token`. -/
def fetchAuthHeader (c : VolumeStatsCollector) (_currentFs : FileSystem) :
    Option String :=
  if c.token ≠ "" then some ("Bearer " ++ c.token) else none

/-! ## Lemmas about the gauge vector operations -/

lemma get_set (g : GaugeVec) (l l' : Labels) (v : Nat) :
    GaugeVec.get (GaugeVec.set g l v) l' =
      if l = l' then some v else GaugeVec.get g l' := by
  induction g with
  | nil => simp [GaugeVec.set, GaugeVec.get]
  | cons hd tl ih =>
      obtain ⟨l₀, v₀⟩ := hd
      by_cases h₀ : l₀ = l
      · subst h₀
        by_cases h₁ : l₀ = l'
        · subst h₁; simp [GaugeVec.set, GaugeVec.get]
        · simp [GaugeVec.set, GaugeVec.get, h₁]
      · by_cases h₁ : l₀ = l'
        · subst h₁
          have hne : l ≠ l₀ := fun h => h₀ h.symm
          simp [GaugeVec.set, GaugeVec.get, h₀, hne]
        · simp [GaugeVec.set, GaugeVec.get, h₀, h₁, ih]

lemma processVolume_of_no_pvc (g : VolumeGauges) (pr : PodReference)
    (vol : VolumeStats) (h : vol.pvcRef = none) :
    processVolume g pr vol = g := by
  simp [processVolume, h]

lemma gaugeOf_processVolume_some (g : VolumeGauges) (pr : PodReference)
    (vol : VolumeStats) (ref : PVCRef) (h : vol.pvcRef = some ref)
    (k : MetricKind) :
    VolumeGauges.gaugeOf (processVolume g pr vol) k =
      setIfPresent (VolumeGauges.gaugeOf g k) (labelsOf pr ref) (fieldOf vol k) := by
  cases k <;> simp [processVolume, h, VolumeGauges.gaugeOf, fieldOf]

lemma get_processVolume (g : VolumeGauges) (pr : PodReference)
    (vol : VolumeStats) (k : MetricKind) (l : Labels) :
    GaugeVec.get (VolumeGauges.gaugeOf (processVolume g pr vol) k) l =
      match volumeWrite pr vol k l with
      | some v => some v
      | none => GaugeVec.get (VolumeGauges.gaugeOf g k) l := by
  cases h : vol.pvcRef with
  | none => simp [processVolume_of_no_pvc g pr vol h, volumeWrite, h]
  | some ref =>
      rw [gaugeOf_processVolume_some g pr vol ref h k]
      cases hf : fieldOf vol k with
      | none => simp [setIfPresent, volumeWrite, h, hf]
      | some v =>
          simp only [setIfPresent, volumeWrite, h, hf, get_set]
          by_cases hl : labelsOf pr ref = l
          · simp [hl]
          · simp [hl]

lemma foldl_processVolume_get (pairs : List (PodReference × VolumeStats))
    (g : VolumeGauges) (k : MetricKind) (l : Labels) :
    GaugeVec.get
        (VolumeGauges.gaugeOf
          (pairs.foldl (fun g pv => processVolume g pv.1 pv.2) g) k) l =
      match lookupFinal pairs k l with
      | some v => some v
      | none => GaugeVec.get (VolumeGauges.gaugeOf g k) l := by
  induction pairs generalizing g with
  | nil => simp [lookupFinal]
  | cons pv rest ih =>
      simp only [List.foldl_cons, lookupFinal]
      rw [ih]
      cases lookupFinal rest k l with
      | some v => simp
      | none => simp [get_processVolume]

lemma updateMetricsFrom_eq (pods : List PodStats) (g : VolumeGauges) :
    updateMetricsFrom g pods =
      (volumesInOrder pods).foldl (fun g pv => processVolume g pv.1 pv.2) g := by
  induction pods generalizing g with
  | nil => rfl
  | cons pod rest ih =>
      simp only [updateMetricsFrom] at ih ⊢
      simp only [volumesInOrder, List.flatMap_cons, List.foldl_append,
        List.foldl_map, List.foldl_cons]
      exact ih _

lemma get_empty (k : MetricKind) (l : Labels) :
    GaugeVec.get (VolumeGauges.gaugeOf emptyVolumeGauges k) l = none := by
  cases k <;> rfl

/-- Pointwise characterisation of `updateMetrics`: the stored value at any
label key is the last write of the snapshot targeting it, independent of
the previous gauge contents. -/
lemma get_updateMetrics (g : VolumeGauges) (stats : StatsResponse)
    (k : MetricKind) (l : Labels) :
    GaugeVec.get (VolumeGauges.gaugeOf (updateMetrics g stats) k) l =
      lookupFinal (volumesInOrder stats.pods) k l := by
  rw [updateMetrics, resetVolumeGauges, updateMetricsFrom_eq,
    foldl_processVolume_get]
  cases lookupFinal (volumesInOrder stats.pods) k l with
  | some v => simp
  | none => simp [get_empty]

lemma isSome_volumeWrite (pr : PodReference) (vol : VolumeStats)
    (k : MetricKind) (l : Labels) :
    (volumeWrite pr vol k l).isSome ↔
      ∃ ref, vol.pvcRef = some ref ∧ (fieldOf vol k).isSome ∧
        l = labelsOf pr ref := by
  cases h : vol.pvcRef with
  | none => simp [volumeWrite, h]
  | some ref =>
      simp only [volumeWrite, h, Option.some.injEq]
      by_cases hl : labelsOf pr ref = l
      · subst hl
        simp
      · simp only [if_neg hl, Option.isSome_none, Bool.false_eq_true,
          false_iff]
        rintro ⟨ref', rfl, -, rfl⟩
        exact hl rfl

lemma isSome_lookupFinal (pairs : List (PodReference × VolumeStats))
    (k : MetricKind) (l : Labels) :
    (lookupFinal pairs k l).isSome ↔
      ∃ pv ∈ pairs, (volumeWrite pv.1 pv.2 k l).isSome := by
  induction pairs with
  | nil => simp [lookupFinal]
  | cons pv rest ih =>
      simp only [lookupFinal, List.mem_cons]
      cases h : lookupFinal rest k l with
      | some v =>
          have hsome : (lookupFinal rest k l).isSome := by rw [h]; rfl
          obtain ⟨x, hx, hw⟩ := ih.mp hsome
          exact iff_of_true rfl ⟨x, Or.inr hx, hw⟩
      | none =>
          rw [h] at ih
          simp only [Option.isSome_none, Bool.false_eq_true, false_iff] at ih
          constructor
          · intro hw
            exact ⟨pv, Or.inl rfl, hw⟩
          · rintro ⟨x, hx | hx, hw⟩
            · rwa [hx] at hw
            · exact absurd ⟨x, hx, hw⟩ ih

lemma exists_mem_volumesInOrder (pods : List PodStats)
    (p : PodReference × VolumeStats → Prop) :
    (∃ pv ∈ volumesInOrder pods, p pv) ↔
      ∃ pod ∈ pods, ∃ vol ∈ pod.volume, p (pod.podRef, vol) := by
  simp only [volumesInOrder, List.mem_flatMap, List.mem_map]
  constructor
  · rintro ⟨pv, ⟨pod, hpod, vol, hvol, rfl⟩, hp⟩
    exact ⟨pod, hpod, vol, hvol, hp⟩
  · rintro ⟨pod, hpod, vol, hvol, hp⟩
    exact ⟨(pod.podRef, vol), ⟨pod, hpod, vol, hvol, rfl⟩, hp⟩

/-! ## Key uniqueness: each label triple appears at most once per vector -/

/-- The children of a gauge vector have pairwise distinct label keys. -/
def NoDupKeys (g : GaugeVec) : Prop :=
  List.Pairwise (fun a b => a.1 ≠ b.1) g

lemma noDupKeys_nil : NoDupKeys [] := List.Pairwise.nil

lemma mem_set (g : GaugeVec) (l : Labels) (v : Nat) :
    ∀ p ∈ GaugeVec.set g l v, p = (l, v) ∨ p ∈ g := by
  induction g with
  | nil => simp [GaugeVec.set]
  | cons hd tl ih =>
      obtain ⟨l₀, v₀⟩ := hd
      by_cases h₀ : l₀ = l
      · intro p hp
        simp only [GaugeVec.set, if_pos h₀, List.mem_cons] at hp
        rcases hp with rfl | hp
        · exact Or.inl rfl
        · exact Or.inr (List.mem_cons_of_mem _ hp)
      · intro p hp
        simp only [GaugeVec.set, if_neg h₀, List.mem_cons] at hp
        rcases hp with rfl | hp
        · exact Or.inr (List.mem_cons_self _ _)
        · rcases ih p hp with h | h
          · exact Or.inl h
          · exact Or.inr (List.mem_cons_of_mem _ h)

lemma noDupKeys_set (g : GaugeVec) (l : Labels) (v : Nat)
    (h : NoDupKeys g) : NoDupKeys (GaugeVec.set g l v) := by
  induction g with
  | nil => simp [GaugeVec.set, NoDupKeys]
  | cons hd tl ih =>
      obtain ⟨l₀, v₀⟩ := hd
      rw [NoDupKeys, List.pairwise_cons] at h
      obtain ⟨hhead, htail⟩ := h
      by_cases h₀ : l₀ = l
      · subst h₀
        rw [GaugeVec.set, if_pos rfl, NoDupKeys, List.pairwise_cons]
        exact ⟨hhead, htail⟩
      · rw [GaugeVec.set, if_neg h₀, NoDupKeys, List.pairwise_cons]
        refine ⟨?_, ih htail⟩
        intro b hb
        rcases mem_set tl l v b hb with rfl | hb
        · exact h₀
        · exact hhead b hb

lemma countLabel_eq_zero (g : GaugeVec) (l : Labels)
    (h : ∀ p ∈ g, p.1 ≠ l) : GaugeVec.countLabel g l = 0 := by
  rw [GaugeVec.countLabel, List.length_eq_zero, List.filter_eq_nil_iff]
  intro p hp
  simpa using h p hp

lemma countLabel_of_noDupKeys (g : GaugeVec) (l : Labels)
    (h : NoDupKeys g) :
    GaugeVec.countLabel g l =
      if (GaugeVec.get g l).isSome then 1 else 0 := by
  induction g with
  | nil => simp [GaugeVec.countLabel, GaugeVec.get]
  | cons hd tl ih =>
      obtain ⟨l₀, v₀⟩ := hd
      rw [NoDupKeys, List.pairwise_cons] at h
      obtain ⟨hhead, htail⟩ := h
      by_cases h₀ : l₀ = l
      · subst h₀
        have hz : GaugeVec.countLabel tl l₀ = 0 :=
          countLabel_eq_zero tl l₀ fun p hp heq => hhead p hp heq.symm
        rw [GaugeVec.countLabel] at hz ⊢
        rw [GaugeVec.get]
        simp [List.filter_cons, hz]
      · have hcount :
            GaugeVec.countLabel ((l₀, v₀) :: tl) l = GaugeVec.countLabel tl l := by
          simp [GaugeVec.countLabel, List.filter_cons, h₀]
        rw [hcount, GaugeVec.get, if_neg h₀]
        exact ih htail

lemma noDupKeys_setIfPresent (g : GaugeVec) (l : Labels) (o : Option Nat)
    (h : NoDupKeys g) : NoDupKeys (setIfPresent g l o) := by
  cases o with
  | none => exact h
  | some v => exact noDupKeys_set g l v h

lemma noDupKeys_processVolume (g : VolumeGauges) (pr : PodReference)
    (vol : VolumeStats) (k : MetricKind)
    (h : NoDupKeys (VolumeGauges.gaugeOf g k)) :
    NoDupKeys (VolumeGauges.gaugeOf (processVolume g pr vol) k) := by
  cases hp : vol.pvcRef with
  | none => rwa [processVolume_of_no_pvc g pr vol hp]
  | some ref =>
      rw [gaugeOf_processVolume_some g pr vol ref hp k]
      exact noDupKeys_setIfPresent _ _ _ h

lemma noDupKeys_foldl (pairs : List (PodReference × VolumeStats))
    (g : VolumeGauges) (k : MetricKind)
    (h : NoDupKeys (VolumeGauges.gaugeOf g k)) :
    NoDupKeys
      (VolumeGauges.gaugeOf
        (pairs.foldl (fun g pv => processVolume g pv.1 pv.2) g) k) := by
  induction pairs generalizing g with
  | nil => exact h
  | cons pv rest ih =>
      exact ih _ (noDupKeys_processVolume g pv.1 pv.2 k h)

lemma noDupKeys_updateMetrics (g : VolumeGauges) (stats : StatsResponse)
    (k : MetricKind) :
    NoDupKeys (VolumeGauges.gaugeOf (updateMetrics g stats) k) := by
  rw [updateMetrics, resetVolumeGauges, updateMetricsFrom_eq]
  refine noDupKeys_foldl _ _ _ ?_
  cases k <;> exact noDupKeys_nil

/-! ## Volumes without a PVC reference are skipped -/

/-- The snapshot with every volume lacking a `pvcRef` removed. -/
def dropVolumesWithoutPVC (stats : StatsResponse) : StatsResponse :=
  { stats with
      pods := stats.pods.map fun pod =>
        { pod with volume := pod.volume.filter fun v => v.pvcRef.isSome } }

lemma gaugeOf_empty (k : MetricKind) :
    VolumeGauges.gaugeOf emptyVolumeGauges k = [] := by
  cases k <;> rfl

lemma foldl_volume_filter (pr : PodReference) (vols : List VolumeStats)
    (g : VolumeGauges) :
    vols.foldl (fun g vol => processVolume g pr vol) g =
      (vols.filter fun v => v.pvcRef.isSome).foldl
        (fun g vol => processVolume g pr vol) g := by
  induction vols generalizing g with
  | nil => rfl
  | cons v rest ih =>
      cases h : v.pvcRef with
      | none =>
          have hp : v.pvcRef.isSome = false := by rw [h]; rfl
          rw [List.foldl_cons, List.filter_cons,
            processVolume_of_no_pvc g pr v h]
          simp only [hp, Bool.false_eq_true, if_false]
          exact ih g
      | some ref =>
          have hp : v.pvcRef.isSome = true := by rw [h]; rfl
          rw [List.foldl_cons, List.filter_cons]
          simp only [hp, if_true]
          rw [List.foldl_cons]
          exact ih _

lemma updateMetricsFrom_filter (pods : List PodStats) (g : VolumeGauges) :
    updateMetricsFrom g pods =
      updateMetricsFrom g
        (pods.map fun pod =>
          { pod with volume := pod.volume.filter fun v => v.pvcRef.isSome }) := by
  induction pods generalizing g with
  | nil => rfl
  | cons pod rest ih =>
      simp only [updateMetricsFrom, List.map_cons, List.foldl_cons] at ih ⊢
      rw [← foldl_volume_filter pod.podRef pod.volume g]
      exact ih _

/-! ## Concrete sample inputs used by witnesses and counterexamples -/

/-- Pod reference of end-to-end scenario 1 of the spec. -/
def samplePodRef : PodReference := ⟨"app-1", "default", "uid-1"⟩

/-- PVC reference of end-to-end scenario 1 of the spec. -/
def samplePVCRef : PVCRef := ⟨"data-pvc", "default"⟩

/-- Volume of end-to-end scenario 1: only `capacityBytes` present. -/
def sampleVolume : VolumeStats :=
  ⟨"t0", "vol-1", some samplePVCRef, some 1000, none, none, none, none, none⟩

/-- Snapshot of end-to-end scenario 1. -/
def sampleSnapshot : StatsResponse :=
  ⟨⟨"node-1"⟩, [⟨samplePodRef, [sampleVolume], none⟩]⟩

/-- A PVC reference whose `name` field is the empty string (decodable from
the JSON document `pvcRef: {"namespace": "pvc-ns"}`). -/
def emptyNamePVCRef : PVCRef := ⟨"", "pvc-ns"⟩

/-- A volume carrying `emptyNamePVCRef` and a present capacity. -/
def emptyNameVolume : VolumeStats :=
  ⟨"t0", "vol-2", some emptyNamePVCRef, some 5, none, none, none, none, none⟩

/-- A snapshot whose only volume has a present `pvcRef` with empty name. -/
def emptyNameSnapshot : StatsResponse :=
  ⟨⟨"node-1"⟩, [⟨samplePodRef, [emptyNameVolume], none⟩]⟩

/-- The default token path of the `-token-path` flag. -/
def tokenPathDefault : String :=
  "/var/run/secrets/kubernetes.io/serviceaccount/token"

/-- Filesystem at process start: every path reads as the old token. -/
def fsAtStartup : FileSystem := fun _ => some "token-old"

/-- Filesystem after the kubelet rotated the credential file. -/
def fsAfterRotation : FileSystem := fun _ => some "token-new"

/-! ## Claim theorems -/

/-- Claim C1: for every decoded snapshot, a gauge of kind `k` holds an
observation at label triple `l` exactly when some volume with a `pvcRef`
and a present field `k` produces it, and then `l` is
`(PodRecord.namespace, pvcRef.name, PodRecord.name)` via `labelsOf` — the
namespace and pod label values come from the owning pod reference and
never from `pvcRef.namespace` or other PVC-side metadata. -/
theorem c1_labels_from_pod_record (g : VolumeGauges) (stats : StatsResponse)
    (k : MetricKind) (l : Labels) :
    (GaugeVec.get (VolumeGauges.gaugeOf (updateMetrics g stats) k) l).isSome ↔
      ∃ pod ∈ stats.pods, ∃ vol ∈ pod.volume, ∃ ref,
        vol.pvcRef = some ref ∧ (fieldOf vol k).isSome ∧
        l = labelsOf pod.podRef ref := by
  rw [get_updateMetrics, isSome_lookupFinal,
    exists_mem_volumesInOrder stats.pods
      fun pv => (volumeWrite pv.1 pv.2 k l).isSome]
  simp only [isSome_volumeWrite]

/-- Claim C2: after a successful poll, the published gauge state equals the
projection of the new snapshot alone — `updateMetrics` resets the six
gauge families to empty and repopulates them, so the stored value at any
label is the last write of the new snapshot and stale label combinations
are gone regardless of the previous registry contents. -/
theorem c2_successful_poll_replaces_observations (r : Registry)
    (s : StatsResponse) (now : Nat) (k : MetricKind) (l : Labels) :
    (collectOnce (Except.ok s) now r).gauges = updateMetrics emptyVolumeGauges s ∧
    GaugeVec.get
        (VolumeGauges.gaugeOf (collectOnce (Except.ok s) now r).gauges k) l =
      lookupFinal (volumesInOrder s.pods) k l :=
  ⟨rfl, get_updateMetrics r.gauges s k l⟩

/-- Claim C3: a failed poll iteration — any `FetchError`, which covers
transport failure, non-200 upstream status, and both decode stages —
leaves the gauge state and the last-scrape timestamp unchanged and
increments the error counter by exactly one; the whole-state equality in
the first conjunct shows these are the only changes. -/
theorem c3_failed_poll_leaves_registry_untouched (e : FetchError) (now : Nat)
    (r : Registry) :
    collectOnce (Except.error e) now r =
        { r with scrapeErrorsTotal := r.scrapeErrorsTotal + 1 } ∧
    (collectOnce (Except.error e) now r).gauges = r.gauges ∧
    (collectOnce (Except.error e) now r).lastScrapeTimestamp =
        r.lastScrapeTimestamp ∧
    (collectOnce (Except.error e) now r).scrapeErrorsTotal =
        r.scrapeErrorsTotal + 1 :=
  ⟨rfl, rfl, rfl, rfl⟩

/-- Claim C4: volumes whose `pvcRef` is absent contribute nothing to the
projection: projecting a snapshot equals projecting the snapshot with all
such volumes removed, so they are skipped silently (the projection is a
total function — no error path exists) while every other volume is still
projected. -/
theorem c4_volumes_without_pvc_are_skipped (g : VolumeGauges)
    (stats : StatsResponse) :
    updateMetrics g stats = updateMetrics g (dropVolumesWithoutPVC stats) := by
  rw [updateMetrics, updateMetrics, dropVolumesWithoutPVC]
  exact updateMetricsFrom_filter stats.pods (resetVolumeGauges g)

/-- Claim C5: for a volume with a `pvcRef`, the gauge of kind `k` produced
by processing that volume alone is exactly one observation when field `k`
is present and no observation when it is absent — each of the six fields
is gated independently, with no all-or-nothing rule. -/
theorem c5_fields_are_independent (pr : PodReference) (vol : VolumeStats)
    (ref : PVCRef) (k : MetricKind) (h : vol.pvcRef = some ref) :
    VolumeGauges.gaugeOf (processVolume emptyVolumeGauges pr vol) k =
      ((fieldOf vol k).map fun v => (labelsOf pr ref, v)).toList := by
  rw [gaugeOf_processVolume_some emptyVolumeGauges pr vol ref h k,
    gaugeOf_empty]
  cases hf : fieldOf vol k with
  | none => rfl
  | some v => rfl

/-- Witness for C5 at end-to-end scenario 1: the volume has a `pvcRef` and
only `capacityBytes` present. -/
theorem c5_fields_are_independent_witness :
    VolumeGauges.gaugeOf (processVolume emptyVolumeGauges samplePodRef sampleVolume)
        MetricKind.capacityBytes =
      ((fieldOf sampleVolume MetricKind.capacityBytes).map
        fun v => (labelsOf samplePodRef samplePVCRef, v)).toList :=
  c5_fields_are_independent samplePodRef sampleVolume samplePVCRef
    MetricKind.capacityBytes rfl

/-- Claim C6: for any snapshot, each gauge family holds at most one child
per label triple — exactly one when some qualifying volume targets it —
and its value is `lookupFinal`, the write of the volume latest in
iteration order whose label triple matches and whose field is present:
last write wins, with no aggregation. -/
theorem c6_last_write_wins (g : VolumeGauges) (stats : StatsResponse)
    (k : MetricKind) (l : Labels) :
    GaugeVec.get (VolumeGauges.gaugeOf (updateMetrics g stats) k) l =
        lookupFinal (volumesInOrder stats.pods) k l ∧
    GaugeVec.countLabel (VolumeGauges.gaugeOf (updateMetrics g stats) k) l =
        if (lookupFinal (volumesInOrder stats.pods) k l).isSome then 1 else 0 := by
  refine ⟨get_updateMetrics g stats k l, ?_⟩
  rw [countLabel_of_noDupKeys _ _ (noDupKeys_updateMetrics g stats k),
    get_updateMetrics]

/-- Claim C7 (code behaviour at the failing input): the collector built at
startup from a filesystem holding `token-old` keeps sending
`Bearer token-old` even when the fetch happens after the credential file
was rotated to `token-new` — the token is read once in `main` and cached,
not re-read per call as the README documents. -/
theorem c7_token_read_once_not_per_call :
    fetchAuthHeader (mkCollector fsAtStartup tokenPathDefault) fsAfterRotation =
        some ("Bearer " ++ "token-old") ∧
    readToken fsAfterRotation tokenPathDefault = Except.ok "token-new" ∧
    ("Bearer " ++ "token-old") ≠ ("Bearer " ++ "token-new") := by
  refine ⟨?_, rfl, by decide⟩
  rfl

/-- Counterexample to claim C8 as stated: the snapshot whose volume has a
present `pvcRef` with empty `name` is projected into an observation whose
`persistentvolumeclaim` label value is the empty string. -/
theorem c8_counterexample_empty_pvc_name :
    GaugeVec.get
        (VolumeGauges.gaugeOf (updateMetrics emptyVolumeGauges emptyNameSnapshot)
          MetricKind.capacityBytes)
        ⟨"default", "", "app-1"⟩ = some 5 ∧
    (Labels.mk "default" "" "app-1").persistentvolumeclaim = "" := by
  refine ⟨?_, rfl⟩
  decide

/-- Claim C8 as amended: every published observation's
`persistentvolumeclaim` label equals the `name` of some volume's `pvcRef`,
so it is non-empty provided every present `pvcRef` in the snapshot has a
non-empty `name` (the code gates only on presence of `pvcRef`, not on its
`name` being non-empty). -/
theorem c8_nonempty_pvc_label (g : VolumeGauges) (stats : StatsResponse)
    (k : MetricKind) (l : Labels)
    (hnames : ∀ pod ∈ stats.pods, ∀ vol ∈ pod.volume, ∀ ref,
      vol.pvcRef = some ref → ref.name ≠ "")
    (hobs : (GaugeVec.get (VolumeGauges.gaugeOf (updateMetrics g stats) k) l).isSome) :
    l.persistentvolumeclaim ≠ "" := by
  rw [get_updateMetrics] at hobs
  obtain ⟨pv, hpv, hw⟩ := (isSome_lookupFinal _ _ _).mp hobs
  obtain ⟨pod, hpod, vol, hvol, hp⟩ :=
    (exists_mem_volumesInOrder stats.pods
      fun pv => ((volumeWrite pv.1 pv.2 k l).isSome : Prop)).mp ⟨pv, hpv, hw⟩
  obtain ⟨ref, href, hf, rfl⟩ := (isSome_volumeWrite _ _ _ _).mp hp
  simpa [labelsOf] using hnames pod hpod vol hvol ref href

/-- Witness for the amended C8 at end-to-end scenario 1. -/
theorem c8_nonempty_pvc_label_witness :
    (Labels.mk "default" "data-pvc" "app-1").persistentvolumeclaim ≠ "" :=
  c8_nonempty_pvc_label emptyVolumeGauges sampleSnapshot
    MetricKind.capacityBytes ⟨"default", "data-pvc", "app-1"⟩
    (by decide) (by decide)

/-- Claim C10: a well-typed but content-free response body — `null`, `{}`,
or an object whose `pods` field is null — decodes successfully into the
snapshot with zero pods, and a poll returning it counts as a success: the
six gauge families become empty (wiping all previously published
observations), the timestamp is set, and the error counter is not
incremented. -/
theorem c10_content_free_body_is_success (r : Registry) (now : Nat) :
    fetchStatsResult (some (200, Body.wellFormed Json.null)) =
        Except.ok ⟨⟨""⟩, []⟩ ∧
    fetchStatsResult (some (200, Body.wellFormed (Json.obj []))) =
        Except.ok ⟨⟨""⟩, []⟩ ∧
    fetchStatsResult (some (200, Body.wellFormed (Json.obj [("pods", Json.null)]))) =
        Except.ok ⟨⟨""⟩, []⟩ ∧
    collectOnce (Except.ok ⟨⟨""⟩, []⟩) now r =
        { r with gauges := emptyVolumeGauges, lastScrapeTimestamp := some now } :=
  ⟨rfl, rfl, rfl, rfl⟩

end KubeletVolumeStats
